import Mathlib

/-!
Verification of the phone-notify stock monitor.

A shallow embedding of the monitoring engine (`src/services/monitoringService.js`),
the Apple Store response parser and fetch retry logic
(`AppleStoreService._parseResponse` / `AppleStoreService.checkAvailability`),
with theorems about the notification predicate, change detection, parsing,
the retry policy and the start/stop lifecycle.

Conventions of the embedding:
* JavaScript objects whose fields may be absent become structures with
  `Option` fields; absent and `null` collapse to `none` (as optional chaining
  does in the source).
* JavaScript string falsiness (`x || d`) is modelled by `jsOr`, where only the
  empty string is falsy.
* `String.prototype.includes` and `String.prototype.toLowerCase` are modelled
  over the character list of the string (`jsIncludes`, `jsToLower`); the case
  mapping is the ASCII one, which is exact for the needle "available today"
  that the code searches for.
* Side effects that do not feed back into engine state (logging, the Pushover
  HTTP call, browser teardown) are not part of the state; whether the notifier
  was invoked is returned as a Bool.
-/

namespace PhoneNotify

/-- Does `needle` occur as an initial segment of `hay`? Helper for `jsIncludes`. -/
def headMatch : List Char → List Char → Bool
  | [], _ => true
  | _ :: _, [] => false
  | a :: as, b :: bs => a == b && headMatch as bs

/-- Does `needle` occur contiguously inside `hay`? Helper for `jsIncludes`. -/
def charsContains (needle : List Char) : List Char → Bool
  | [] => needle.isEmpty
  | c :: t => headMatch needle (c :: t) || charsContains needle t

/-- JavaScript `s.includes(needle)`: case-sensitive substring test. -/
def jsIncludes (s needle : String) : Bool :=
  charsContains needle.data s.data

/-- JavaScript `s.toLowerCase()`, with the ASCII case mapping. -/
def jsToLower (s : String) : String :=
  ⟨s.data.map Char.toLower⟩

/-- JavaScript `a || b` on strings: only the empty string is falsy. -/
def jsOr (a b : String) : String :=
  if a = "" then b else a

/-- One part entry of `store.partsAvailability` in the Apple API payload.
Either quote field may be absent. -/
structure PartData where
  pickupSearchQuote : Option String
  storePickupQuote : Option String

/-- One store entry of the payload; `partsAvailability` is the JS object
keyed by part number, `storeName` may be absent. -/
structure Store where
  partsAvailability : List (String × PartData)
  storeName : Option String

/-- The `pickupMessage` container; its `stores` array may be absent. -/
structure PickupMessage where
  stores : Option (List Store)

/-- The `content` container. -/
structure Content where
  pickupMessage : Option PickupMessage

/-- The top-level `body` container. -/
structure Body where
  content : Option Content

/-- A JSON-object response payload, as navigated by `_parseResponse`. -/
structure Payload where
  body : Option Body

/-- The navigation `data.body?.content?.pickupMessage?.stores || []`:
optional chaining collapses any absent link to `undefined`, and `|| []`
replaces that with the empty array. -/
def storesOf (data : Payload) : List Store :=
  (((data.body.bind Body.content).bind Content.pickupMessage).bind
    PickupMessage.stores).getD []

/-- The object lookup `partsAvailability[partNumber]`. -/
def lookupPart (pa : List (String × PartData)) (partNumber : String) : Option PartData :=
  (pa.find? fun kv => kv.fst == partNumber).map Prod.snd

/-- The value `_parseResponse` returns: the availability snapshot.
`storeName` is `none` on the sentinel returns, which carry no such field
(the pass-through `rawData` field is not modelled: nothing reads it). -/
structure StockData where
  available : Bool
  message : String
  storeName : Option String

/-- `AppleStoreService._parseResponse` on a JSON-object payload: empty store
list and missing part entry return sentinel snapshots; otherwise availability
is a case-insensitive substring test of "available today" against
`pickupSearchQuote`, and the message falls back through
`pickupSearchQuote || storePickupQuote || 'Unknown status'`. -/
def _parseResponse (partNumber : String) (data : Payload) : StockData :=
  match storesOf data with
  | [] =>
    { available := false, message := "No store data available", storeName := none }
  | store :: _ =>
    match lookupPart store.partsAvailability partNumber with
    | none =>
      { available := false, message := "Part not found in store data", storeName := none }
    | some partData =>
      let pickupSearchQuote := partData.pickupSearchQuote.getD ""
      let storePickupQuote := partData.storePickupQuote.getD ""
      let available := jsIncludes (jsToLower pickupSearchQuote) "available today"
      { available := available,
        message := jsOr (jsOr pickupSearchQuote storePickupQuote) "Unknown status",
        storeName := some (jsOr (store.storeName.getD "") "Unknown Store") }

/-- `_parseResponse` on possibly-null response data: on null/undefined `data`
the first property access throws and the catch rethrows the
"Response parsing failed" error; on any JSON-object payload the body runs
without throwing. -/
def parseResponse (partNumber : String) : Option Payload → Except String StockData
  | none => Except.error "Response parsing failed"
  | some data => Except.ok (_parseResponse partNumber data)

/-- The `pickupSearchQuote` value the parse extracts (defaulted to the empty
string as in the source), when a part entry is present at all. -/
def quoteOf (partNumber : String) (data : Payload) : Option String :=
  match storesOf data with
  | [] => none
  | store :: _ =>
    (lookupPart store.partsAvailability partNumber).map fun pd =>
      pd.pickupSearchQuote.getD ""

/-- The record stored in `this.lastKnownStatus` after a successful check. -/
structure LastStatus where
  available : Bool
  message : String
  timestamp : String

/-- The mutable fields of `MonitoringService`. -/
structure MonitoringState where
  isRunning : Bool
  intervalId : Option Nat
  lastKnownStatus : Option LastStatus
  checkCount : Nat

/-- The constructor state of `MonitoringService`. -/
def initState : MonitoringState :=
  { isRunning := false, intervalId := none, lastKnownStatus := none, checkCount := 0 }

/-- `MonitoringService._detectStatusChange`: `false` on the first check
(no previous status); otherwise a change in `available` or in `message`. -/
def _detectStatusChange (lastKnownStatus : Option LastStatus)
    (currentStock : StockData) : Bool :=
  match lastKnownStatus with
  | none => false
  | some last =>
    let availabilityChanged := last.available != currentStock.available
    let messageChanged := last.message != currentStock.message
    availabilityChanged || messageChanged

/-- `MonitoringService._handleStatusChange`: invokes
`pushoverService.notifyStockAvailable` exactly when the stock is available;
returns whether the notifier was invoked (its own success flag only feeds
logging and no state). -/
def _handleStatusChange (stockData : StockData) : Bool :=
  stockData.available

/-- What `appleStoreService.checkAvailability()` delivered to the check:
parsed stock data, or a thrown (terminal) fetch/parse error. -/
inductive CheckOutcome where
  | success (stockData : StockData)
  | failure (errMsg : String)

/-- One run of `MonitoringService._performCheck` on the delivered outcome and
the current timestamp: increments the counter, on success runs change
detection, possibly notifies, and replaces `lastKnownStatus`; on a thrown
error it only logs and cleans up. Returns the new state and whether a
notification was dispatched. -/
def _performCheck (st : MonitoringState) (outcome : CheckOutcome) (now : String) :
    MonitoringState × Bool :=
  let st1 := { st with checkCount := st.checkCount + 1 }
  match outcome with
  | CheckOutcome.failure _ => (st1, false)
  | CheckOutcome.success stockData =>
    let statusChanged := _detectStatusChange st1.lastKnownStatus stockData
    let isFirstCheck := st1.lastKnownStatus.isNone
    let notified :=
      if statusChanged then
        _handleStatusChange stockData
      else if isFirstCheck && stockData.available then
        _handleStatusChange stockData
      else
        false
    ({ st1 with
        lastKnownStatus := some
          { available := stockData.available,
            message := stockData.message,
            timestamp := now } },
      notified)

/-- How a `start()`/`stop()` call returns to its caller: a normal return
(value `undefined`) or a thrown error. -/
inductive CallOutcome where
  | returned
  | threw (msg : String)

/-- `MonitoringService.start`: when already running it logs a warning and
returns; otherwise it sets the flag, fires the first check and arms the
interval timer. `timerId` stands for the handle `setInterval` returned;
`firstCheck` and `now` are the oracle inputs of the first check (which the
source runs without awaiting; its state updates are modelled in order). -/
def start (st : MonitoringState) (firstCheck : CheckOutcome) (now : String)
    (timerId : Nat) : MonitoringState × CallOutcome :=
  if st.isRunning then
    (st, CallOutcome.returned)
  else
    let st1 := { st with isRunning := true }
    let stepped := _performCheck st1 firstCheck now
    ({ stepped.fst with intervalId := some timerId }, CallOutcome.returned)

/-- `MonitoringService.stop`: when not running it logs a warning and returns;
otherwise it clears the flag, disarms the timer and releases browser
resources. -/
def stop (st : MonitoringState) : MonitoringState × CallOutcome :=
  if st.isRunning then
    ({ st with isRunning := false, intervalId := none }, CallOutcome.returned)
  else
    (st, CallOutcome.returned)

/-- `maxRetries` of `AppleStoreService.checkAvailability`. -/
def maxRetries : Nat := 3

/-- A classified failure observed inside one attempt of `checkAvailability`:
a captured API response with a non-200 status code, or an exception raised
while fetching (timeouts, network failures, and the errors the status branch
itself throws, whose messages mention "status"). -/
inductive FetchError where
  | apiStatus (code : Nat)
  | thrown (msg : String)

/-- Whether an attempt retries, and after what delay. -/
structure RetryDecision where
  shouldRetry : Bool
  delayMs : Nat

/-- The retry branches of `AppleStoreService.checkAvailability` as a function
of the classified error and the 0-based attempt count: status 541 retries
with `(attempt+1) * 10000` ms while attempts remain; a thrown error whose
message does not mention "status" retries with `(attempt+1) * 5000` ms while
attempts remain; everything else does not retry. -/
def retryDecision : FetchError → Nat → RetryDecision
  | FetchError.apiStatus code, retryCount =>
    if code = 541 ∧ retryCount < maxRetries then
      { shouldRetry := true, delayMs := (retryCount + 1) * 10000 }
    else
      { shouldRetry := false, delayMs := 0 }
  | FetchError.thrown msg, retryCount =>
    if jsIncludes msg "status" = false ∧ retryCount < maxRetries then
      { shouldRetry := true, delayMs := (retryCount + 1) * 5000 }
    else
      { shouldRetry := false, delayMs := 0 }

/-- The terminal error `checkAvailability` surfaces once the retry branches
decline: status errors are rethrown as they are, a message mentioning
"timeout" becomes the request-timeout error, anything else is wrapped in
"Request failed". -/
def terminalError : FetchError → String
  | FetchError.apiStatus code => "Apple API responded with status " ++ toString code
  | FetchError.thrown msg =>
    if jsIncludes msg "status" then msg
    else if jsIncludes msg "timeout" then
      "Request timeout - Apple API did not respond in time"
    else
      "Request failed: " ++ msg

/-- A part entry with an empty `pickupSearchQuote` and a `storePickupQuote`
reading "available today". -/
def crossQuotePart : PartData :=
  { pickupSearchQuote := some "", storePickupQuote := some "available today" }

/-- A store carrying `crossQuotePart` under the part number "MYPART". -/
def crossQuoteStore : Store :=
  { partsAvailability := [("MYPART", crossQuotePart)], storeName := some "Test Store" }

/-- A payload whose part entry has an empty `pickupSearchQuote` but whose
`storePickupQuote` reads "available today". -/
def crossQuotePayload : Payload :=
  { body := some
      { content := some
          { pickupMessage := some { stores := some [crossQuoteStore] } } } }

/-- A payload with the top-level `body` container absent. -/
def noBodyPayload : Payload :=
  { body := none }

/-- An engine state that is currently running. -/
def runningState : MonitoringState :=
  { isRunning := true, intervalId := some 1, lastKnownStatus := none, checkCount := 1 }

/-- If the fallback of a string disjunction is non-empty, so is the result. -/
theorem jsOr_ne_of_ne (a b : String) (h : b ≠ "") : jsOr a b ≠ "" := by
  unfold jsOr
  split
  · exact h
  · assumption

/-- C1: on a check whose fetch and parse succeed, a notification is dispatched
iff (the status changed and the new snapshot is available) or (there was no
previous snapshot and the new snapshot is available); in particular a
transition out of availability and a repeated available observation dispatch
nothing. -/
theorem C1_notify_iff (st : MonitoringState) (stockData : StockData) (now : String) :
    (_performCheck st (CheckOutcome.success stockData) now).snd
      = ((_detectStatusChange st.lastKnownStatus stockData && stockData.available)
          || (st.lastKnownStatus.isNone && stockData.available)) := by
  simp only [_performCheck, _handleStatusChange]
  cases hsc : _detectStatusChange st.lastKnownStatus stockData <;>
    cases hfc : st.lastKnownStatus.isNone <;>
      cases hav : stockData.available <;>
        simp [hsc, hfc, hav]

/-- C2: the parsed snapshot has `available = true` iff the payload's pickup
quote exists and contains "available today" after lowercasing; every payload
without such a quote parses to `available = false`. -/
theorem C2_available_iff (partNumber : String) (data : Payload) :
    (_parseResponse partNumber data).available = true ↔
      ∃ q, quoteOf partNumber data = some q ∧
        jsIncludes (jsToLower q) "available today" = true := by
  unfold _parseResponse quoteOf
  cases h : storesOf data with
  | nil => simp [h]
  | cons store rest =>
    cases hp : lookupPart store.partsAvailability partNumber with
    | none => simp [h, hp]
    | some pd => simp [h, hp]

/-- C3: change detection returns false when there is no previous status;
otherwise it is exactly "availability differs or message differs", so a
snapshot equal to the previous one in both fields is never a change. -/
theorem C3_detectChange (prev : LastStatus) (cur : StockData) :
    _detectStatusChange none cur = false ∧
    _detectStatusChange (some prev) cur
      = ((prev.available != cur.available) || (prev.message != cur.message)) ∧
    (prev.available = cur.available → prev.message = cur.message →
      _detectStatusChange (some prev) cur = false) := by
  refine ⟨rfl, rfl, ?_⟩
  intro h1 h2
  simp [_detectStatusChange, h1, h2]

/-- C4 counterexample: the claim says a timeout waiting for the response is
never retried and surfaces immediately; the code's retry condition only
excludes messages mentioning "status", so a timeout error at attempt 0 is
retried with the 5-second network backoff. -/
theorem C4_counterexample :
    (retryDecision (FetchError.thrown
        "Request timeout - Apple API did not respond in time") 0).shouldRetry
      = true := by
  decide

/-- C4 amended: status 541 retries with delay `(attempt+1) * 10s` while
`attempt < 3`; a thrown error whose message does not mention "status" —
generic network failures and timeouts alike — retries with `(attempt+1) * 5s`
while `attempt < 3`; any other non-success status never retries; from attempt
3 on every class is terminal, and an exhausted timeout surfaces as the
request-timeout check failure. -/
theorem C4_retry_policy (attempt code : Nat) (msg : String) :
    (retryDecision (FetchError.apiStatus 541) attempt
      = if attempt < maxRetries then
          { shouldRetry := true, delayMs := (attempt + 1) * 10000 }
        else
          { shouldRetry := false, delayMs := 0 }) ∧
    (code ≠ 541 → retryDecision (FetchError.apiStatus code) attempt
      = { shouldRetry := false, delayMs := 0 }) ∧
    (jsIncludes msg "status" = false →
      retryDecision (FetchError.thrown msg) attempt
        = if attempt < maxRetries then
            { shouldRetry := true, delayMs := (attempt + 1) * 5000 }
          else
            { shouldRetry := false, delayMs := 0 }) ∧
    (jsIncludes msg "status" = true →
      retryDecision (FetchError.thrown msg) attempt
        = { shouldRetry := false, delayMs := 0 }) ∧
    (maxRetries ≤ attempt →
      ∀ e : FetchError, (retryDecision e attempt).shouldRetry = false) ∧
    (jsIncludes msg "status" = false → jsIncludes msg "timeout" = true →
      terminalError (FetchError.thrown msg)
        = "Request timeout - Apple API did not respond in time") := by
  refine ⟨?_, ?_, ?_, ?_, ?_, ?_⟩
  · by_cases h : attempt < maxRetries <;> simp [retryDecision, h]
  · intro hc
    simp [retryDecision, hc]
  · intro hm
    by_cases h : attempt < maxRetries <;> simp [retryDecision, hm, h]
  · intro hm
    simp [retryDecision, hm]
  · intro hle e
    have h := Nat.not_lt.mpr hle
    cases e <;> simp [retryDecision, h]
  · intro h1 h2
    simp [terminalError, h1, h2]

/-- C5: a check whose fetch or parse fails terminally leaves `lastKnownStatus`
unchanged, dispatches no notification, increments `checkCount` exactly once,
and leaves the running flag and the timer untouched. -/
theorem C5_failed_check (st : MonitoringState) (errMsg now : String) :
    (_performCheck st (CheckOutcome.failure errMsg) now).fst.lastKnownStatus
        = st.lastKnownStatus ∧
    (_performCheck st (CheckOutcome.failure errMsg) now).snd = false ∧
    (_performCheck st (CheckOutcome.failure errMsg) now).fst.checkCount
        = st.checkCount + 1 ∧
    (_performCheck st (CheckOutcome.failure errMsg) now).fst.isRunning
        = st.isRunning ∧
    (_performCheck st (CheckOutcome.failure errMsg) now).fst.intervalId
        = st.intervalId :=
  ⟨rfl, rfl, rfl, rfl, rfl⟩

/-- C6 counterexample: `start()` on a running engine and `stop()` on a stopped
engine both return normally after logging a warning — no AlreadyRunning or
NotRunning error is thrown to the caller, contrary to the claim. -/
theorem C6_counterexample :
    start runningState (CheckOutcome.failure "e") "t" 2
        = (runningState, CallOutcome.returned) ∧
    stop initState = (initState, CallOutcome.returned) :=
  ⟨rfl, rfl⟩

/-- C6 amended: `start()` while running and `stop()` while stopped are
rejected as no-ops: each logs a warning and returns normally with the state
unchanged (no second timer armed); no error is surfaced to the caller. -/
theorem C6_lifecycle_misuse (st : MonitoringState) (firstCheck : CheckOutcome)
    (now : String) (timerId : Nat) :
    (st.isRunning = true →
      start st firstCheck now timerId = (st, CallOutcome.returned)) ∧
    (st.isRunning = false → stop st = (st, CallOutcome.returned)) := by
  constructor
  · intro h
    simp [start, h]
  · intro h
    simp [stop, h]

/-- C7 counterexample: with the top-level `body` container absent, parse does
not fail with MalformedPayload — it returns the no-store-data sentinel
snapshot, contrary to the claim. -/
theorem C7_counterexample :
    parseResponse "MYPART" (some noBodyPayload)
      = Except.ok { available := false, message := "No store data available",
                    storeName := none } :=
  rfl

/-- C7 amended: parse fails only when the response data itself is null; on
every JSON-object payload it succeeds — an absent container chain or an empty
store list yields the "No store data available" sentinel and a missing part
entry yields "Part not found in store data", each with `available = false`. -/
theorem C7_parse_totality (partNumber : String) (data : Payload) :
    (∃ s, parseResponse partNumber (some data) = Except.ok s) ∧
    (storesOf data = [] →
      parseResponse partNumber (some data)
        = Except.ok { available := false, message := "No store data available",
                      storeName := none }) ∧
    (∀ store rest, storesOf data = store :: rest →
      lookupPart store.partsAvailability partNumber = none →
      parseResponse partNumber (some data)
        = Except.ok { available := false, message := "Part not found in store data",
                      storeName := none }) ∧
    parseResponse partNumber none = Except.error "Response parsing failed" := by
  refine ⟨⟨_parseResponse partNumber data, rfl⟩, ?_, ?_, rfl⟩
  · intro h
    simp [parseResponse, _parseResponse, h]
  · intro store rest h hp
    simp [parseResponse, _parseResponse, h, hp]

/-- C8: every snapshot the parse produces carries a non-empty message: the
sentinels are fixed non-empty strings and the quote fallback chain bottoms
out at "Unknown status". -/
theorem C8_message_nonempty (partNumber : String) (data : Payload) :
    (_parseResponse partNumber data).message ≠ "" := by
  unfold _parseResponse
  cases h : storesOf data with
  | nil => simp [h]
  | cons store rest =>
    cases hp : lookupPart store.partsAvailability partNumber with
    | none => simp [h, hp]
    | some pd =>
      simp only [h, hp]
      exact jsOr_ne_of_ne
        (jsOr (pd.pickupSearchQuote.getD "") (pd.storePickupQuote.getD ""))
        "Unknown status" (by decide)

/-- C9: availability is computed solely from `pickupSearchQuote` whenever the
part entry is present, and the message falls back to `storePickupQuote`; in
particular the concrete payload with an empty `pickupSearchQuote` and a
`storePickupQuote` of "available today" parses to a snapshot that is not
available although its message contains "available today". -/
theorem C9_pickupSearchQuote_only :
    (∀ (partNumber : String) (data : Payload) (store : Store)
        (rest : List Store) (pd : PartData),
        storesOf data = store :: rest →
        lookupPart store.partsAvailability partNumber = some pd →
        (_parseResponse partNumber data).available
          = jsIncludes (jsToLower (pd.pickupSearchQuote.getD ""))
              "available today") ∧
    (_parseResponse "MYPART" crossQuotePayload).available = false ∧
    jsIncludes (_parseResponse "MYPART" crossQuotePayload).message
        "available today" = true := by
  refine ⟨?_, by decide, by decide⟩
  intro partNumber data store rest pd h hp
  simp [_parseResponse, h, hp]

/-- C10: `start()` invoked on a running engine returns without modifying any
engine state — the running flag, the timer, the last snapshot and the check
counter are all left as they were, and no second timer is armed. -/
theorem C10_start_noop (st : MonitoringState) (firstCheck : CheckOutcome)
    (now : String) (timerId : Nat) (h : st.isRunning = true) :
    start st firstCheck now timerId = (st, CallOutcome.returned) := by
  simp [start, h]

/-- Witness for C10 at a concrete running state. -/
theorem C10_start_noop_witness :
    start runningState (CheckOutcome.failure "boom") "now" 7
      = (runningState, CallOutcome.returned) :=
  C10_start_noop runningState (CheckOutcome.failure "boom") "now" 7 rfl

end PhoneNotify
